import Mathlib

/-!
# Account lifecycle and credential-verification state machine

A shallow embedding of the account/credential core of the backend:
user records with role/status/suspension metadata, ephemeral email
tokens (verification and password reset), the authentication flow
(`AuthRepository.authenticate`, `AuthService.login`), the email-token
repository (`EmailRepository`), the password-reset and email-verification
handlers, and the suspension handler/controller.

Conventions of the embedding:
* Timestamps are `Int` milliseconds (JS `Date.now()`); comparisons are the
  literal comparisons of the source (`gt` / `<`).
* The database is a pure value `Db`; every prisma query is translated to a
  `List` operation on it (`findUnique`/`findFirst` become `List.find?`,
  `update` by unique key becomes a `map` over the matching key,
  `deleteMany` becomes a `filter`).
* bcrypt is modelled as a deterministic injective tag (`hashPassword`),
  compared with `comparePassword`, matching the round-trip contract of
  the hashing component.
* JWT issuance is modelled as returning the claims payload itself.
* The notification dispatcher (email transport) is an external
  collaborator; its dispatch is modelled as always succeeding, and the
  handlers' best-effort catch blocks around it therefore disappear.
-/

inductive UserRole
  | USER
  | ADMIN
  | SUPER_ADMIN
deriving DecidableEq, Repr

inductive UserStatus
  | ACTIVE
  | SUSPENDED
  | DELETED
deriving DecidableEq, Repr

/-- `EMAIL_TOKEN_TYPES`: `VERIFICATION` and `PASSWORD_RESET`. -/
inductive TokenType
  | VERIFICATION
  | PASSWORD_RESET
deriving DecidableEq, Repr

/-- The `User` row of the data model (profile fields that no claim touches
are carried as-is; image/audit fields not needed by any claim are dropped). -/
structure User where
  id : String
  email : String
  password : String
  name : Option String
  role : UserRole
  status : UserStatus
  emailVerified : Bool
  emailVerifiedAt : Option Int
  suspensionReason : Option String
  suspendedAt : Option Int
  suspendedBy : Option String
  lastLogin : Option Int
  createdAt : Int
  updatedAt : Int
deriving DecidableEq, Repr

/-- The `EmailToken` row: single-use ephemeral token. In the schema `id`
and `token` both carry unique indexes. -/
structure EmailToken where
  id : Nat
  userId : String
  type : TokenType
  token : String
  expiresAt : Int
  usedAt : Option Int
  createdAt : Int
deriving DecidableEq, Repr

/-- The persistent state: the user table, the email-token table, and a
counter used to mint fresh token ids / raw token strings (modelling the
autoincrement id plus `crypto.randomBytes(32).toString(\x7bhex\x7d)`
which is fresh with overwhelming probability). -/
structure Db where
  users : List User
  emailTokens : List EmailToken
  nextTokenId : Nat
deriving DecidableEq, Repr

/-- Domain error: message plus the HTTP status code carried by `AppError`. -/
structure AppError where
  message : String
  statusCode : Nat
deriving DecidableEq, Repr

/-- The `{success, message}` envelope together with the HTTP status the
handler writes via `res.status(...)`. -/
structure ApiResponse where
  success : Bool
  message : String
  status : Nat
deriving DecidableEq, Repr

instance {ε α : Type} [DecidableEq ε] [DecidableEq α] : DecidableEq (Except ε α) := fun a b =>
  match a, b with
  | Except.ok x, Except.ok y =>
    if h : x = y then isTrue (by rw [h]) else isFalse (fun hc => h (Except.ok.inj hc))
  | Except.error x, Except.error y =>
    if h : x = y then isTrue (by rw [h]) else isFalse (fun hc => h (Except.error.inj hc))
  | Except.ok _, Except.error _ => isFalse (fun hc => Except.noConfusion hc)
  | Except.error _, Except.ok _ => isFalse (fun hc => Except.noConfusion hc)

structure LoginCredentials where
  email : String
  password : String
deriving DecidableEq, Repr

/-- JWT claims payload (`userId`, `email`, `role`); `generateToken` is
modelled as the identity on this payload. -/
structure JwtPayload where
  userId : String
  email : String
  role : UserRole
deriving DecidableEq, Repr

namespace EMAIL_CONFIG

/-- 24 hours in milliseconds. -/
def VERIFICATION_TOKEN_EXPIRY : Int := 24 * 60 * 60 * 1000

/-- 2 hours in milliseconds. -/
def PASSWORD_RESET_TOKEN_EXPIRY : Int := 2 * 60 * 60 * 1000

/-- 5 minutes in milliseconds. -/
def RESEND_VERIFICATION_COOLDOWN : Int := 5 * 60 * 1000

end EMAIL_CONFIG

/-- `email.toLowerCase().trim()`; whitespace trimming is spelled out on
`List Char` because `String.trim` is opaque to kernel reduction. -/
def normalizeEmail (e : String) : String :=
  String.mk
    ((((e.data.map Char.toLower).dropWhile Char.isWhitespace).reverse.dropWhile
        Char.isWhitespace).reverse)

/-- bcrypt hash with cost 12, modelled as a deterministic injective tag. -/
def hashPassword (password : String) : String :=
  "$2b$12$" ++ password

/-- bcrypt compare: the digest matches iff it is the hash of the plaintext. -/
def comparePassword (password hash : String) : Bool :=
  hash == hashPassword password

/-- `jwt.sign(payload, secret)` modelled as the verified claims bundle. -/
def generateToken (payload : JwtPayload) : JwtPayload := payload

namespace UserRepository

/-- `prisma.user.findUnique(\x7b where: \x7b id \x7d \x7d)`. -/
def findById (db : Db) (id : String) : Option User :=
  db.users.find? (fun u => u.id == id)

/-- `prisma.user.findUnique(\x7b where: \x7b email \x7d \x7d)` — exact
match on the stored string, no normalization at this layer. -/
def findByEmail (db : Db) (email : String) : Option User :=
  db.users.find? (fun u => u.email == email)

/-- `updateLastLogin`: set `lastLogin` to now; a missing id is ignored. -/
def updateLastLogin (db : Db) (id : String) (now : Int) : Db :=
  { db with
    users := db.users.map (fun u =>
      if u.id == id then { u with lastLogin := some now } else u) }

/-- `changePassword`: store the already-hashed password, stamp `updatedAt`. -/
def changePassword (db : Db) (id : String) (hashedPassword : String) (now : Int) : Db :=
  { db with
    users := db.users.map (fun u =>
      if u.id == id then { u with password := hashedPassword, updatedAt := now } else u) }

/-- `updateEmailVerification`: set the flag, stamp `emailVerifiedAt`
accordingly, stamp `updatedAt`. -/
def updateEmailVerification (db : Db) (id : String) (verified : Bool) (now : Int) : Db :=
  { db with
    users := db.users.map (fun u =>
      if u.id == id then
        { u with
          emailVerified := verified,
          emailVerifiedAt := if verified then some now else none,
          updatedAt := now }
      else u) }

/-- `delete` (soft delete): set `status := DELETED`, stamp `updatedAt`;
nothing else is touched — in particular the suspension metadata is kept. -/
def delete (db : Db) (id : String) (now : Int) : Db :=
  { db with
    users := db.users.map (fun u =>
      if u.id == id then { u with status := UserStatus.DELETED, updatedAt := now } else u) }

/-- Modelled from the spec: `UserRepository.suspendUser` is called by
`suspendUserHandler` and `UserService.suspendUser` but its implementation
is not among the provided sources (only callers, mocks and tests are).
Spec §4.4: effect `status=SUSPENDED, suspensionReason=reason,
suspendedAt=now, suspendedBy=actingAdminId`. -/
def suspendUser (db : Db) (id : String) (reason : String) (adminId : String) (now : Int) : Db :=
  { db with
    users := db.users.map (fun u =>
      if u.id == id then
        { u with
          status := UserStatus.SUSPENDED,
          suspensionReason := some reason,
          suspendedAt := some now,
          suspendedBy := some adminId,
          updatedAt := now }
      else u) }

/-- Modelled from the spec: `UserRepository.activateUser` is called by
`activateUserHandler` but its implementation is not among the provided
sources. Spec §4.4: effect `status=ACTIVE`, clears
`suspensionReason/suspendedAt/suspendedBy` to null. -/
def activateUser (db : Db) (id : String) (_adminId : String) (now : Int) : Db :=
  { db with
    users := db.users.map (fun u =>
      if u.id == id then
        { u with
          status := UserStatus.ACTIVE,
          suspensionReason := none,
          suspendedAt := none,
          suspendedBy := none,
          updatedAt := now }
      else u) }

end UserRepository

namespace EmailRepository

/-- The result shape of `verifyAndConsumeToken`: `\x7b userId, isValid \x7d`. -/
structure ConsumeResult where
  userId : String
  isValid : Bool
deriving DecidableEq, Repr

/-- The `findFirst` predicate of `verifyAndConsumeToken`: same raw token,
same type, `usedAt: null`, `expiresAt: \x7b gt: new Date() \x7d`. -/
def tokenUsable (now : Int) (tok : String) (tt : TokenType) (t : EmailToken) : Bool :=
  t.token == tok && t.type == tt && t.usedAt == none && t.expiresAt > now

/-- The `prisma.emailToken.findFirst` read step of `verifyAndConsumeToken`. -/
def findFirstUsable (db : Db) (now : Int) (tok : String) (tt : TokenType) : Option EmailToken :=
  db.emailTokens.find? (tokenUsable now tok tt)

/-- The `prisma.emailToken.update(\x7b where: \x7b id \x7d, data: \x7b usedAt: new Date() \x7d \x7d)`
write step of `verifyAndConsumeToken`: unconditionally stamps `usedAt` on the row with that id. -/
def markUsed (db : Db) (now : Int) (tid : Nat) : Db :=
  { db with
    emailTokens := db.emailTokens.map (fun t =>
      if t.id == tid then { t with usedAt := some now } else t) }

/-- `EmailRepository.verifyAndConsumeToken`: a `findFirst` on
unused+unexpired followed by a *separate* `update` marking the row used. -/
def verifyAndConsumeToken (db : Db) (now : Int) (tok : String) (tt : TokenType) :
    ConsumeResult × Db :=
  match findFirstUsable db now tok tt with
  | none => ({ userId := "", isValid := false }, db)
  | some t => ({ userId := t.userId, isValid := true }, markUsed db now t.id)

/-- `EmailRepository.canRequestVerification`: true iff no token of type
`VERIFICATION` for this user was created after `now - RESEND_VERIFICATION_COOLDOWN`.
Note the type is hard-wired to `VERIFICATION` even though the password-reset
handler reuses this method. -/
def canRequestVerification (db : Db) (now : Int) (userId : String) : Bool :=
  !(db.emailTokens.any (fun t =>
    t.userId == userId && t.type == TokenType.VERIFICATION &&
      t.createdAt > now - EMAIL_CONFIG.RESEND_VERIFICATION_COOLDOWN))

/-- Fresh opaque raw token string (models `crypto.randomBytes(32).toString`,
fresh with overwhelming probability; freshness is realised via the counter). -/
def freshToken (db : Db) : String := "tok" ++ toString db.nextTokenId

/-- `EmailRepository.createVerificationToken`: `deleteMany` all tokens of
this user with type `VERIFICATION`, then `create` one new unused token
expiring at `now + VERIFICATION_TOKEN_EXPIRY`; returns the raw token. -/
def createVerificationToken (db : Db) (now : Int) (userId : String) : Db × String :=
  let token := freshToken db
  let expiresAt := now + EMAIL_CONFIG.VERIFICATION_TOKEN_EXPIRY
  let remaining := db.emailTokens.filter (fun t =>
    !(t.userId == userId && t.type == TokenType.VERIFICATION))
  let newTok : EmailToken :=
    { id := db.nextTokenId, userId := userId, type := TokenType.VERIFICATION,
      token := token, expiresAt := expiresAt, usedAt := none, createdAt := now }
  ({ db with emailTokens := remaining ++ [newTok], nextTokenId := db.nextTokenId + 1 }, token)

/-- `EmailRepository.createPasswordResetToken`: `deleteMany` all tokens of
this user with type `PASSWORD_RESET`, then `create` one new unused token
expiring at `now + PASSWORD_RESET_TOKEN_EXPIRY`; returns the raw token. -/
def createPasswordResetToken (db : Db) (now : Int) (userId : String) : Db × String :=
  let token := freshToken db
  let expiresAt := now + EMAIL_CONFIG.PASSWORD_RESET_TOKEN_EXPIRY
  let remaining := db.emailTokens.filter (fun t =>
    !(t.userId == userId && t.type == TokenType.PASSWORD_RESET))
  let newTok : EmailToken :=
    { id := db.nextTokenId, userId := userId, type := TokenType.PASSWORD_RESET,
      token := token, expiresAt := expiresAt, usedAt := none, createdAt := now }
  ({ db with emailTokens := remaining ++ [newTok], nextTokenId := db.nextTokenId + 1 }, token)

end EmailRepository

namespace AuthRepository

/-- `AuthRepository.authenticate`: normalize the email, look the user up,
reject (null) when absent or `status !== ACTIVE`, then compare the
password, stamp `lastLogin` and re-read the user. -/
def authenticate (db : Db) (now : Int) (credentials : LoginCredentials) :
    Option User × Db :=
  let normalizedEmail := normalizeEmail credentials.email
  match UserRepository.findByEmail db normalizedEmail with
  | none => (none, db)
  | some user =>
    if user.status ≠ UserStatus.ACTIVE then (none, db)
    else if !(comparePassword credentials.password user.password) then (none, db)
    else
      let db1 := UserRepository.updateLastLogin db user.id now
      (UserRepository.findById db1 user.id, db1)

/-- Modelled from the spec: `AuthRepository.updatePassword` is called by
`resetPasswordHandler` but its implementation is not among the provided
sources. Spec §4.4 `confirmPasswordReset` step 3: "Hash and persist
newPassword". -/
def updatePassword (db : Db) (id : String) (newPassword : String) (now : Int) : Db :=
  UserRepository.changePassword db id (hashPassword newPassword) now

end AuthRepository

namespace AuthService

/-- `AuthService.login`: authenticate, translate a null into
`Unauthorized "Invalid credentials"`, re-check `SUSPENDED`/`DELETED` on the
returned user, then issue the JWT payload. -/
def login (db : Db) (now : Int) (credentials : LoginCredentials) :
    Except AppError (User × JwtPayload) × Db :=
  match AuthRepository.authenticate db now credentials with
  | (none, db1) => (Except.error { message := "Invalid credentials", statusCode := 401 }, db1)
  | (some user, db1) =>
    if user.status = UserStatus.SUSPENDED then
      (Except.error { message := "Account is suspended", statusCode := 403 }, db1)
    else if user.status = UserStatus.DELETED then
      (Except.error { message := "Account not found", statusCode := 404 }, db1)
    else
      (Except.ok (user, generateToken { userId := user.id, email := user.email, role := user.role }), db1)

end AuthService

/-- The uniform anti-enumeration response of `sendPasswordResetHandler`. -/
def genericResetResponse : ApiResponse :=
  { success := true,
    message := "If an account with this email exists, a password reset link has been sent.",
    status := 200 }

/-- `sendPasswordResetHandler`: raw-email lookup (no normalization on this
path), generic success when absent or not ACTIVE, rate-limit check through
`canRequestVerification` (the `VERIFICATION`-typed cooldown), then token
creation and dispatch. The `catch` block maps the rate-limit `AppError`
to a failure envelope with its 429 status. -/
def sendPasswordResetHandler (db : Db) (now : Int) (email : String) : ApiResponse × Db :=
  match UserRepository.findByEmail db email with
  | none => (genericResetResponse, db)
  | some user =>
    if user.status ≠ UserStatus.ACTIVE then (genericResetResponse, db)
    else if !(EmailRepository.canRequestVerification db now user.id) then
      ({ success := false,
         message := "Too many password reset emails sent. Please wait before requesting another.",
         status := 429 }, db)
    else
      let created := EmailRepository.createPasswordResetToken db now user.id
      (genericResetResponse, created.1)

/-- `resetPasswordHandler`: consume the token first, then load the owner,
then check it is ACTIVE, then update the password (password-changed
notification is best-effort). -/
def resetPasswordHandler (db : Db) (now : Int) (tok : String) (newPassword : String) :
    ApiResponse × Db :=
  let consumed := EmailRepository.verifyAndConsumeToken db now tok TokenType.PASSWORD_RESET
  let result := consumed.1
  let db1 := consumed.2
  if !result.isValid then
    ({ success := false, message := "Invalid or expired reset token", status := 400 }, db1)
  else
    match UserRepository.findById db1 result.userId with
    | none => ({ success := false, message := "User not found", status := 404 }, db1)
    | some user =>
      if user.status ≠ UserStatus.ACTIVE then
        ({ success := false, message := "Account is not active", status := 403 }, db1)
      else
        ({ success := true, message := "Password reset successfully", status := 200 },
          AuthRepository.updatePassword db1 user.id newPassword now)

/-- `verifyEmailHandler`: consume the token first, then load the owner
(no status check on this path), no-op success when already verified,
otherwise set the verification flag. -/
def verifyEmailHandler (db : Db) (now : Int) (tok : String) : ApiResponse × Db :=
  let consumed := EmailRepository.verifyAndConsumeToken db now tok TokenType.VERIFICATION
  let result := consumed.1
  let db1 := consumed.2
  if !result.isValid then
    ({ success := false, message := "Invalid or expired verification token", status := 400 }, db1)
  else
    match UserRepository.findById db1 result.userId with
    | none => ({ success := false, message := "User not found", status := 404 }, db1)
    | some user =>
      if user.emailVerified then
        ({ success := true, message := "Email is already verified", status := 200 }, db1)
      else
        ({ success := true, message := "Email verified successfully", status := 200 },
          UserRepository.updateEmailVerification db1 user.id true now)

def isHexChar (c : Char) : Bool :=
  c.isDigit || ('a' ≤ c && c ≤ 'f') || ('A' ≤ c && c ≤ 'F')

/-- Character admitted at position `i` of the UUID regex
`[0-9a-f]{8}-[0-9a-f]{4}-[1-5][0-9a-f]{3}-[89ab][0-9a-f]{3}-[0-9a-f]{12}`
with the case-insensitive flag. -/
def uuidCharOk (i : Nat) (c : Char) : Bool :=
  if i = 8 || i = 13 || i = 18 || i = 23 then c == '-'
  else if i = 14 then '1' ≤ c && c ≤ '5'
  else if i = 19 then c == '8' || c == '9' || c == 'a' || c == 'b' || c == 'A' || c == 'B'
  else isHexChar c

def uuidRegexTest (s : String) : Bool :=
  s.data.length = 36 && (List.range 36).all (fun i => uuidCharOk i (s.data.getD i ' '))

def isLowerAlpha (c : Char) : Bool := 'a' ≤ c && c ≤ 'z'

/-- CUID2 regex `^[a-z][a-z0-9]{20,}$`. -/
def cuidRegexTest (s : String) : Bool :=
  match s.data with
  | [] => false
  | c :: rest =>
    isLowerAlpha c && rest.all (fun d => isLowerAlpha d || d.isDigit) && rest.length ≥ 20

/-- `isValidUUID` via `uuidSchema.safeParse`: the literal test id
`non-existent-id` is allowed, else standard UUID or CUID2 format. -/
def isValidUUID (s : String) : Bool :=
  s == "non-existent-id" || uuidRegexTest s || cuidRegexTest s

/-- `suspendUserHandler`: existence, already-suspended, deleted and
admin-role guards, then the suspension write (the suspension notification
email is best-effort and modelled as succeeding). -/
def suspendUserHandler (db : Db) (now : Int) (userId : String) (reason : String)
    (adminId : String) : Except AppError Db :=
  match UserRepository.findById db userId with
  | none => Except.error { message := "User not found", statusCode := 404 }
  | some user =>
    if user.status = UserStatus.SUSPENDED then
      Except.error { message := "User is already suspended", statusCode := 400 }
    else if user.status = UserStatus.DELETED then
      Except.error { message := "Cannot suspend deleted user", statusCode := 400 }
    else if user.role = UserRole.ADMIN || user.role = UserRole.SUPER_ADMIN then
      Except.error { message := "Cannot suspend admin users", statusCode := 403 }
    else
      Except.ok (UserRepository.suspendUser db userId reason adminId now)

/-- `suspendUserController`: UUID format check, the `req.user.id === id`
self-suspension check (BadRequest), the authentication presence check, the
handler call, and the catch block mapping an `AppError` to its envelope. -/
def suspendUserController (db : Db) (now : Int) (reqUser : Option String) (id : String)
    (reason : String) : ApiResponse × Db :=
  if !(isValidUUID id) then
    ({ success := false, message := "Invalid user ID format", status := 400 }, db)
  else if reqUser == some id then
    ({ success := false, message := "Cannot suspend your own account", status := 400 }, db)
  else
    match reqUser with
    | none => ({ success := false, message := "Authentication required", status := 401 }, db)
    | some adminId =>
      match suspendUserHandler db now id reason adminId with
      | Except.error e => ({ success := false, message := e.message, status := e.statusCode }, db)
      | Except.ok db1 => ({ success := true, message := "User suspended successfully", status := 200 }, db1)

/-- `activateUserHandler`: existence and must-be-suspended guards, then the
activation write (the activation email is best-effort). -/
def activateUserHandler (db : Db) (now : Int) (userId : String) (_reason : String)
    (adminId : String) : Except AppError Db :=
  match UserRepository.findById db userId with
  | none => Except.error { message := "User not found", statusCode := 404 }
  | some user =>
    if user.status ≠ UserStatus.SUSPENDED then
      Except.error { message := "User is not suspended", statusCode := 400 }
    else
      Except.ok (UserRepository.activateUser db userId adminId now)

namespace Concurrency

/-- One request executing `verifyAndConsumeToken`, broken at its storage
round-trips: before the `findFirst`, between the `findFirst` and the
`update` (holding the row it saw), and finished. -/
inductive ConsumerState
  | beforeFind
  | afterFind (tokenId : Nat) (userId : String)
  | finished (result : EmailRepository.ConsumeResult)
deriving DecidableEq, Repr

/-- One storage round-trip of a consumer: the read step resolves the
`findFirst`, the write step performs the `update(\x7b where: \x7b id \x7d \x7d)`
and reports success. -/
def consumerStep (now : Int) (tok : String) (tt : TokenType) (db : Db) :
    ConsumerState → ConsumerState × Db
  | ConsumerState.beforeFind =>
    match EmailRepository.findFirstUsable db now tok tt with
    | none => (ConsumerState.finished { userId := "", isValid := false }, db)
    | some t => (ConsumerState.afterFind t.id t.userId, db)
  | ConsumerState.afterFind tid uid =>
    (ConsumerState.finished { userId := uid, isValid := true }, EmailRepository.markUsed db now tid)
  | ConsumerState.finished r => (ConsumerState.finished r, db)

/-- Interleave two consumers of the same raw token: the schedule says which
request performs its next storage round-trip. -/
def runSchedule (now : Int) (tok : String) (tt : TokenType) (sched : List Bool)
    (start : Db × ConsumerState × ConsumerState) : Db × ConsumerState × ConsumerState :=
  sched.foldl
    (fun acc b =>
      let db := acc.1
      let s1 := acc.2.1
      let s2 := acc.2.2
      if b then
        let r := consumerStep now tok tt db s1
        (r.2, r.1, s2)
      else
        let r := consumerStep now tok tt db s2
        (r.2, s1, r.1))
    start

def succeeded : ConsumerState → Bool
  | ConsumerState.finished r => r.isValid
  | _ => false

end Concurrency

/-! ## Concrete fixtures used by counterexamples and witnesses -/

/-- A user row with the given identity/role/status and all optional data empty. -/
def mkUser (id email password : String) (role : UserRole) (status : UserStatus) : User :=
  { id := id, email := email, password := password, name := none, role := role,
    status := status, emailVerified := false, emailVerifiedAt := none,
    suspensionReason := none, suspendedAt := none, suspendedBy := none,
    lastLogin := none, createdAt := 0, updatedAt := 0 }

def suspUserFx : User := mkUser "u1" "sus@x.co" (hashPassword "pw") UserRole.USER UserStatus.SUSPENDED

def dbSuspFx : Db := { users := [suspUserFx], emailTokens := [], nextTokenId := 0 }

def activeUserFx : User := mkUser "u2" "ok@x.co" (hashPassword "pw") UserRole.USER UserStatus.ACTIVE

def dbActiveFx : Db := { users := [activeUserFx], emailTokens := [], nextTokenId := 0 }

def activeUserLoggedFx : User := { activeUserFx with lastLogin := some 0 }

def dbActiveLoggedFx : Db := { users := [activeUserLoggedFx], emailTokens := [], nextTokenId := 0 }

/-! ## C1 — login against a non-ACTIVE account -/

/-- C1, counterexample: a SUSPENDED account with the correct password gets
`Unauthorized "Invalid credentials"` from `AuthService.login`, not the
`Forbidden "Account is suspended"` the claim states: the status filter in
`AuthRepository.authenticate` runs before the password check and returns
null, so the outer SUSPENDED branch never fires. -/
theorem login_suspended_counterexample :
    comparePassword "pw" suspUserFx.password = true ∧
    suspUserFx.status = UserStatus.SUSPENDED ∧
    (AuthService.login dbSuspFx 0 { email := "sus@x.co", password := "pw" }).1 =
      Except.error { message := "Invalid credentials", statusCode := 401 } ∧
    (AuthService.login dbSuspFx 0 { email := "sus@x.co", password := "pw" }).1 ≠
      Except.error { message := "Account is suspended", statusCode := 403 } := by
  refine ⟨by decide, by decide, by decide, by decide⟩

/-- C1 (amended): for any account that the (normalized-email) lookup finds
with status ≠ ACTIVE, login fails with `Unauthorized "Invalid credentials"`
— for SUSPENDED and DELETED alike — and the store is unchanged; a session
token is issued only when the looked-up account has status ACTIVE and the
password matches. -/
theorem login_nonactive_invalid_credentials :
    (∀ (db : Db) (now : Int) (c : LoginCredentials) (u : User),
        UserRepository.findByEmail db (normalizeEmail c.email) = some u →
        u.status ≠ UserStatus.ACTIVE →
        AuthService.login db now c =
          (Except.error { message := "Invalid credentials", statusCode := 401 }, db)) ∧
    (∀ (db : Db) (now : Int) (c : LoginCredentials) (r : User × JwtPayload) (db1 : Db),
        AuthService.login db now c = (Except.ok r, db1) →
        ∃ u, UserRepository.findByEmail db (normalizeEmail c.email) = some u ∧
          u.status = UserStatus.ACTIVE ∧ comparePassword c.password u.password = true) := by
  constructor
  · intro db now c u hfind hstat
    simp only [AuthService.login, AuthRepository.authenticate, hfind, if_pos hstat]
  · intro db now c r db1 hlogin
    unfold AuthService.login AuthRepository.authenticate at hlogin
    dsimp only at hlogin
    cases hfind : UserRepository.findByEmail db (normalizeEmail c.email) with
    | none => rw [hfind] at hlogin; simp at hlogin
    | some u =>
      rw [hfind] at hlogin
      dsimp only at hlogin
      by_cases hstat : u.status ≠ UserStatus.ACTIVE
      · rw [if_pos hstat] at hlogin; simp at hlogin
      · rw [if_neg hstat] at hlogin
        by_cases hpw : comparePassword c.password u.password
        · exact ⟨u, rfl, not_not.mp hstat, hpw⟩
        · rw [if_pos (by simp [hpw])] at hlogin; simp at hlogin

/-- C1 witness: the amended theorem applied at a concrete suspended
account and at a concrete successful login. -/
theorem login_nonactive_invalid_credentials_witness :
    AuthService.login dbSuspFx 0 { email := "sus@x.co", password := "pw" } =
      (Except.error { message := "Invalid credentials", statusCode := 401 }, dbSuspFx) ∧
    (∃ u, UserRepository.findByEmail dbActiveFx (normalizeEmail "ok@x.co") = some u ∧
      u.status = UserStatus.ACTIVE ∧ comparePassword "pw" u.password = true) :=
  ⟨login_nonactive_invalid_credentials.1 dbSuspFx 0
      { email := "sus@x.co", password := "pw" } suspUserFx (by decide) (by decide),
    login_nonactive_invalid_credentials.2 dbActiveFx 0 { email := "ok@x.co", password := "pw" }
      (activeUserLoggedFx,
        { userId := "u2", email := "ok@x.co", role := UserRole.USER })
      dbActiveLoggedFx (by decide)⟩

/-! ## C2 — uniform password-reset response, no token on the failure paths -/

/-- C2 (confirmed): a reset request for an unknown email, and one for a
known account whose status is not ACTIVE, both return exactly the same
generic success envelope as the happy path (`genericResetResponse`, one
shared value: identical success flag and message string), and in the two
failure cases the store — in particular the token table — is unchanged. -/
theorem password_reset_uniform_response :
    (∀ (db : Db) (now : Int) (email : String),
        UserRepository.findByEmail db email = none →
        sendPasswordResetHandler db now email = (genericResetResponse, db)) ∧
    (∀ (db : Db) (now : Int) (email : String) (u : User),
        UserRepository.findByEmail db email = some u →
        u.status ≠ UserStatus.ACTIVE →
        sendPasswordResetHandler db now email = (genericResetResponse, db)) ∧
    (∀ (db : Db) (now : Int) (email : String) (u : User),
        UserRepository.findByEmail db email = some u →
        u.status = UserStatus.ACTIVE →
        EmailRepository.canRequestVerification db now u.id = true →
        (sendPasswordResetHandler db now email).1 = genericResetResponse) := by
  refine ⟨?_, ?_, ?_⟩
  · intro db now email hfind
    unfold sendPasswordResetHandler
    rw [hfind]
  · intro db now email u hfind hstat
    unfold sendPasswordResetHandler
    rw [hfind]
    dsimp only
    rw [if_pos hstat]
  · intro db now email u hfind hstat hcan
    unfold sendPasswordResetHandler
    rw [hfind]
    dsimp only
    rw [if_neg (by simp [hstat]), if_neg (by simp [hcan])]

/-- C2 witness: the three branches of the uniform-response theorem applied
at an unknown email, at a suspended account, and at an active account. -/
theorem password_reset_uniform_response_witness :
    sendPasswordResetHandler dbActiveFx 0 "missing@x.co" = (genericResetResponse, dbActiveFx) ∧
    sendPasswordResetHandler dbSuspFx 0 "sus@x.co" = (genericResetResponse, dbSuspFx) ∧
    (sendPasswordResetHandler dbActiveFx 0 "ok@x.co").1 = genericResetResponse :=
  ⟨password_reset_uniform_response.1 dbActiveFx 0 "missing@x.co" (by decide),
    password_reset_uniform_response.2.1 dbSuspFx 0 "sus@x.co" suspUserFx (by decide) (by decide),
    password_reset_uniform_response.2.2 dbActiveFx 0 "ok@x.co" activeUserFx
      (by decide) (by decide) (by decide)⟩

/-! ## Helper lemmas about token consumption -/

theorem EmailRepository.tokenUsable_iff (now : Int) (tok : String) (tt : TokenType)
    (t : EmailToken) :
    EmailRepository.tokenUsable now tok tt t = true ↔
      t.token = tok ∧ t.type = tt ∧ t.usedAt = none ∧ t.expiresAt > now := by
  simp [EmailRepository.tokenUsable, and_assoc]

/-- Consumption reports success iff some stored token matches the raw
string and type and is unused and unexpired. -/
theorem EmailRepository.consume_isValid_iff (db : Db) (now : Int) (tok : String)
    (tt : TokenType) :
    (EmailRepository.verifyAndConsumeToken db now tok tt).1.isValid = true ↔
      ∃ t ∈ db.emailTokens, EmailRepository.tokenUsable now tok tt t = true := by
  unfold EmailRepository.verifyAndConsumeToken EmailRepository.findFirstUsable
  cases hf : db.emailTokens.find? (EmailRepository.tokenUsable now tok tt) with
  | none =>
    simp only [hf]
    constructor
    · intro h; simp at h
    · rintro ⟨t, hmem, ht⟩
      rw [List.find?_eq_none] at hf
      exact absurd ht (hf t hmem)
  | some t =>
    simp only [hf]
    exact ⟨fun _ => ⟨t, List.mem_of_find?_eq_some hf, List.find?_some hf⟩, fun _ => trivial⟩

/-- After a successful consumption, every stored token carrying the same
raw string is marked used (raw strings are unique in the schema). -/
theorem EmailRepository.consume_marks_used (db : Db) (now : Int) (tok : String)
    (tt : TokenType)
    (hnd : (db.emailTokens.map EmailToken.token).Nodup)
    (hv : (EmailRepository.verifyAndConsumeToken db now tok tt).1.isValid = true) :
    ∀ t' ∈ (EmailRepository.verifyAndConsumeToken db now tok tt).2.emailTokens,
      t'.token = tok → t'.usedAt ≠ none := by
  unfold EmailRepository.verifyAndConsumeToken at hv ⊢
  cases hf : EmailRepository.findFirstUsable db now tok tt with
  | none => rw [hf] at hv; simp at hv
  | some f =>
    dsimp only
    have hf' : db.emailTokens.find? (EmailRepository.tokenUsable now tok tt) = some f := hf
    have hfu := (EmailRepository.tokenUsable_iff now tok tt f).mp (List.find?_some hf')
    have hfm := List.mem_of_find?_eq_some hf'
    intro t' hmem htok
    simp only [EmailRepository.markUsed] at hmem
    obtain ⟨s, hs, rfl⟩ := List.mem_map.mp hmem
    by_cases hid : (s.id == f.id) = true
    · rw [if_pos hid]
      simp
    · rw [if_neg hid] at htok ⊢
      have : s = f := List.inj_on_of_nodup_map hnd hs hfm (htok.trans hfu.1.symm)
      exact absurd (by rw [this]; simp) hid

/-- If every stored token with this raw string is already used, the
consume step fails and the store is untouched. -/
theorem EmailRepository.consume_fails_of_all_used (db : Db) (now : Int) (tok : String)
    (tt : TokenType)
    (h : ∀ t ∈ db.emailTokens, t.token = tok → t.usedAt ≠ none) :
    EmailRepository.verifyAndConsumeToken db now tok tt =
      ({ userId := "", isValid := false }, db) := by
  unfold EmailRepository.verifyAndConsumeToken EmailRepository.findFirstUsable
  have hnone : db.emailTokens.find? (EmailRepository.tokenUsable now tok tt) = none := by
    rw [List.find?_eq_none]
    intro t hmem hp
    have := (EmailRepository.tokenUsable_iff now tok tt t).mp hp
    exact h t hmem this.1 this.2.2.1
  rw [hnone]

/-- The email-verification handler never changes the token table beyond
what the consume step already did. -/
theorem verifyEmailHandler_emailTokens (db : Db) (now : Int) (tok : String) :
    ((verifyEmailHandler db now tok).2).emailTokens =
      ((EmailRepository.verifyAndConsumeToken db now tok TokenType.VERIFICATION).2).emailTokens := by
  cases hc : EmailRepository.verifyAndConsumeToken db now tok TokenType.VERIFICATION with
  | mk res db1 =>
    unfold verifyEmailHandler
    rw [hc]
    dsimp only
    split
    · rfl
    · split
      · rfl
      · split <;> rfl

/-- A failing consume step makes the email-verification handler answer
with the invalid-token error and pass the store through unchanged. -/
theorem verifyEmailHandler_invalid (db : Db) (now : Int) (tok : String)
    (h : EmailRepository.verifyAndConsumeToken db now tok TokenType.VERIFICATION =
      ({ userId := "", isValid := false }, db)) :
    verifyEmailHandler db now tok =
      ({ success := false, message := "Invalid or expired verification token", status := 400 },
        db) := by
  unfold verifyEmailHandler
  rw [h]
  rfl

/-- A failing consume step makes the password-reset confirmation handler
answer with the invalid-token error and pass the store through unchanged. -/
theorem resetPasswordHandler_invalid (db : Db) (now : Int) (tok pw : String)
    (h : EmailRepository.verifyAndConsumeToken db now tok TokenType.PASSWORD_RESET =
      ({ userId := "", isValid := false }, db)) :
    resetPasswordHandler db now tok pw =
      ({ success := false, message := "Invalid or expired reset token", status := 400 }, db) := by
  unfold resetPasswordHandler
  rw [h]
  rfl

/-! ## C3 — consumption condition and single use of verification tokens -/

def verUserFx : User := mkUser "u3" "v@x.co" (hashPassword "pw") UserRole.USER UserStatus.ACTIVE

def verTokFx : EmailToken :=
  { id := 1, userId := "u3", type := TokenType.VERIFICATION, token := "t3",
    expiresAt := 100, usedAt := none, createdAt := 0 }

def dbVerFx : Db := { users := [verUserFx], emailTokens := [verTokFx], nextTokenId := 2 }

/-- C3 (confirmed): for a stored verification token with the submitted raw
string, consumption succeeds iff `usedAt` is null and the current time is
before `expiresAt`; and once the consume step has succeeded, a second
`verifyEmail` call with the same raw string answers
`BadRequest "Invalid or expired verification token"` and changes nothing. -/
theorem token_single_use_consumption :
    ∀ (db : Db) (now : Int) (tok : String) (t : EmailToken),
      (db.emailTokens.map EmailToken.token).Nodup →
      t ∈ db.emailTokens → t.token = tok → t.type = TokenType.VERIFICATION →
      (((EmailRepository.verifyAndConsumeToken db now tok TokenType.VERIFICATION).1.isValid = true)
          ↔ (t.usedAt = none ∧ now < t.expiresAt)) ∧
      ((EmailRepository.verifyAndConsumeToken db now tok TokenType.VERIFICATION).1.isValid = true →
        ∀ (now2 : Int),
          verifyEmailHandler ((verifyEmailHandler db now tok).2) now2 tok =
            ({ success := false, message := "Invalid or expired verification token", status := 400 },
              (verifyEmailHandler db now tok).2)) := by
  intro db now tok t hnd hmem htok hty
  constructor
  · rw [EmailRepository.consume_isValid_iff]
    constructor
    · rintro ⟨t', hmem', ht'⟩
      rw [EmailRepository.tokenUsable_iff] at ht'
      have heq : t' = t := List.inj_on_of_nodup_map hnd hmem' hmem (ht'.1.trans htok.symm)
      exact ⟨heq ▸ ht'.2.2.1, heq ▸ ht'.2.2.2⟩
    · rintro ⟨hu, he⟩
      exact ⟨t, hmem, (EmailRepository.tokenUsable_iff now tok TokenType.VERIFICATION t).mpr
        ⟨htok, hty, hu, he⟩⟩
  · intro hv now2
    have htoks := verifyEmailHandler_emailTokens db now tok
    have hused := EmailRepository.consume_marks_used db now tok TokenType.VERIFICATION hnd hv
    have hall : ∀ t' ∈ ((verifyEmailHandler db now tok).2).emailTokens,
        t'.token = tok → t'.usedAt ≠ none := by
      rw [htoks]; exact hused
    exact verifyEmailHandler_invalid ((verifyEmailHandler db now tok).2) now2 tok
      (EmailRepository.consume_fails_of_all_used _ now2 tok TokenType.VERIFICATION hall)

/-- C3 witness: the consumption theorem applied to a concrete unused,
unexpired verification token. -/
theorem token_single_use_consumption_witness :
    ((EmailRepository.verifyAndConsumeToken dbVerFx 50 "t3" TokenType.VERIFICATION).1.isValid = true ↔
      (verTokFx.usedAt = none ∧ (50 : Int) < verTokFx.expiresAt)) ∧
    verifyEmailHandler ((verifyEmailHandler dbVerFx 50 "t3").2) 60 "t3" =
      ({ success := false, message := "Invalid or expired verification token", status := 400 },
        (verifyEmailHandler dbVerFx 50 "t3").2) := by
  have h := token_single_use_consumption dbVerFx 50 "t3" verTokFx
    (by decide) (by decide) (by decide) (by decide)
  exact ⟨h.1, h.2 (by decide) 60⟩

/-! ## C4 — two-step consume under concurrency -/

/-- Model validation: running one consumer through both of its storage
round-trips is exactly `verifyAndConsumeToken`. -/
theorem consumerStep_complete_run (db : Db) (now : Int) (tok : String) (tt : TokenType) :
    (Concurrency.consumerStep now tok tt
        (Concurrency.consumerStep now tok tt db Concurrency.ConsumerState.beforeFind).2
        (Concurrency.consumerStep now tok tt db Concurrency.ConsumerState.beforeFind).1) =
      (Concurrency.ConsumerState.finished
          (EmailRepository.verifyAndConsumeToken db now tok tt).1,
        (EmailRepository.verifyAndConsumeToken db now tok tt).2) := by
  unfold Concurrency.consumerStep EmailRepository.verifyAndConsumeToken
  cases hf : EmailRepository.findFirstUsable db now tok tt <;> rfl

/-- C4 (code bug): `verifyAndConsumeToken` is a `findFirst` followed by a
*separate* `update`, not one atomic conditional update. The token below is
valid (the sequential consume succeeds), yet under the interleaving
read₁, read₂, write₁, write₂ of two concurrent consumers of the same raw
token both requests finish with `isValid = true` — two successes, where
the spec, and the repository's own concurrency test, demand exactly one. -/
theorem token_consume_read_write_race :
    (EmailRepository.verifyAndConsumeToken dbVerFx 50 "t3" TokenType.VERIFICATION).1.isValid
        = true ∧
    Concurrency.succeeded
        (Concurrency.runSchedule 50 "t3" TokenType.VERIFICATION [true, false, true, false]
          (dbVerFx, Concurrency.ConsumerState.beforeFind,
            Concurrency.ConsumerState.beforeFind)).2.1 = true ∧
    Concurrency.succeeded
        (Concurrency.runSchedule 50 "t3" TokenType.VERIFICATION [true, false, true, false]
          (dbVerFx, Concurrency.ConsumerState.beforeFind,
            Concurrency.ConsumerState.beforeFind)).2.2 = true := by
  refine ⟨by decide, by decide, by decide⟩

/-! ## C5 — suspension guards -/

def adminCuidFx : String := "a123456789012345678901"

def adminUserFx : User :=
  mkUser adminCuidFx "adm@x.co" (hashPassword "pw") UserRole.ADMIN UserStatus.ACTIVE

def dbAdminFx : Db := { users := [adminUserFx], emailTokens := [], nextTokenId := 0 }

def dbMixFx : Db := { users := [activeUserFx, adminUserFx], emailTokens := [], nextTokenId := 0 }

def dbMixSuspendedFx : Db := UserRepository.suspendUser dbMixFx "u2" "r" adminCuidFx 0

/-- C5, counterexample: an admin suspending themself is rejected by the
controller with `BadRequest 400 "Cannot suspend your own account"`, not
with the Forbidden error the claim states. -/
theorem self_suspension_badrequest_counterexample :
    (suspendUserController dbAdminFx 0 (some adminCuidFx) adminCuidFx "r").1 =
      { success := false, message := "Cannot suspend your own account", status := 400 } ∧
    (suspendUserController dbAdminFx 0 (some adminCuidFx) adminCuidFx "r").1.status ≠ 403 := by
  refine ⟨by decide, by decide⟩

/-- C5 (amended): a target that exists and is neither already SUSPENDED
nor DELETED and has role ADMIN or SUPER_ADMIN is rejected with
`Forbidden "Cannot suspend admin users"`; self-suspension is rejected by
the controller with `BadRequest 400 "Cannot suspend your own account"`
(not Forbidden) before the handler runs; and no account with role ADMIN
or SUPER_ADMIN is ever modified by a successful suspend operation, so
none reaches SUSPENDED through it. -/
theorem suspend_admin_guard :
    (∀ (db : Db) (now : Int) (id reason adminId : String) (u : User),
        UserRepository.findById db id = some u →
        u.status ≠ UserStatus.SUSPENDED →
        u.status ≠ UserStatus.DELETED →
        (u.role = UserRole.ADMIN ∨ u.role = UserRole.SUPER_ADMIN) →
        suspendUserHandler db now id reason adminId =
          Except.error { message := "Cannot suspend admin users", statusCode := 403 }) ∧
    (∀ (db : Db) (now : Int) (uid reason : String),
        isValidUUID uid = true →
        suspendUserController db now (some uid) uid reason =
          ({ success := false, message := "Cannot suspend your own account", status := 400 }, db)) ∧
    (∀ (db : Db) (now : Int) (id reason adminId : String) (db1 : Db),
        (db.users.map User.id).Nodup →
        suspendUserHandler db now id reason adminId = Except.ok db1 →
        ∀ u' ∈ db1.users,
          (u'.role = UserRole.ADMIN ∨ u'.role = UserRole.SUPER_ADMIN) → u' ∈ db.users) := by
  refine ⟨?_, ?_, ?_⟩
  · intro db now id reason adminId u hfind h1 h2 hrole
    unfold suspendUserHandler
    rw [hfind]
    dsimp only
    rw [if_neg h1, if_neg h2, if_pos (by rcases hrole with h | h <;> simp [h])]
  · intro db now uid reason h
    unfold suspendUserController
    rw [h]
    simp
  · intro db now id reason adminId db1 hnd hok u' hmem' hrole
    unfold suspendUserHandler at hok
    cases hfind : UserRepository.findById db id with
    | none => rw [hfind] at hok; simp at hok
    | some u =>
      rw [hfind] at hok
      dsimp only at hok
      by_cases h1 : u.status = UserStatus.SUSPENDED
      · rw [if_pos h1] at hok; simp at hok
      · rw [if_neg h1] at hok
        by_cases h2 : u.status = UserStatus.DELETED
        · rw [if_pos h2] at hok; simp at hok
        · rw [if_neg h2] at hok
          by_cases h3 : (u.role = UserRole.ADMIN || u.role = UserRole.SUPER_ADMIN) = true
          · rw [if_pos h3] at hok; simp at hok
          · rw [if_neg h3] at hok
            have hdb1 : db1 = UserRepository.suspendUser db id reason adminId now :=
              (Except.ok.inj hok).symm
            subst hdb1
            simp only [UserRepository.suspendUser] at hmem'
            obtain ⟨s, hs, rfl⟩ := List.mem_map.mp hmem'
            by_cases hid : (s.id == id) = true
            · have hfind' : db.users.find? (fun v => v.id == id) = some u := hfind
              have humem : u ∈ db.users := List.mem_of_find?_eq_some hfind'
              have huid : u.id = id := by simpa using List.find?_some hfind'
              have hsid : s.id = id := by simpa using hid
              have hsu : s = u := List.inj_on_of_nodup_map hnd hs humem (by rw [hsid, huid])
              rw [if_pos hid] at hrole
              dsimp at hrole
              rw [hsu] at hrole
              rcases hrole with h | h
              · exact absurd (by simp [h]) h3
              · exact absurd (by simp [h]) h3
            · rw [if_neg hid]
              exact hs

/-- C5 witness: the three guard statements applied to a concrete admin
target, a concrete self-suspension call, and a concrete successful
suspension with an admin bystander. -/
theorem suspend_admin_guard_witness :
    suspendUserHandler dbAdminFx 0 adminCuidFx "r" "b123456789012345678901" =
      Except.error { message := "Cannot suspend admin users", statusCode := 403 } ∧
    suspendUserController dbAdminFx 0 (some adminCuidFx) adminCuidFx "r" =
      ({ success := false, message := "Cannot suspend your own account", status := 400 },
        dbAdminFx) ∧
    adminUserFx ∈ dbMixFx.users :=
  ⟨suspend_admin_guard.1 dbAdminFx 0 adminCuidFx "r" "b123456789012345678901" adminUserFx
      (by decide) (by decide) (by decide) (Or.inl rfl),
    suspend_admin_guard.2.1 dbAdminFx 0 adminCuidFx "r" (by decide),
    suspend_admin_guard.2.2 dbMixFx 0 "u2" "r" adminCuidFx dbMixSuspendedFx
      (by decide) (by decide) adminUserFx (by decide) (Or.inl rfl)⟩

/-! ## C6 — suspension metadata biconditional -/

/-- The claimed invariant on one account: SUSPENDED iff all three pieces
of suspension metadata are present. -/
def suspMetaIff (u : User) : Prop :=
  u.status = UserStatus.SUSPENDED ↔
    (u.suspensionReason ≠ none ∧ u.suspendedAt ≠ none ∧ u.suspendedBy ≠ none)

instance (u : User) : Decidable (suspMetaIff u) :=
  inferInstanceAs (Decidable (u.status = UserStatus.SUSPENDED ↔
    (u.suspensionReason ≠ none ∧ u.suspendedAt ≠ none ∧ u.suspendedBy ≠ none)))

def dbPlainFx : Db :=
  { users := [mkUser "u6" "c6@x.co" (hashPassword "pw") UserRole.USER UserStatus.ACTIVE],
    emailTokens := [], nextTokenId := 0 }

def dbPlainSuspFx : Db := UserRepository.suspendUser dbPlainFx "u6" "policy violation" "adm1" 5

def dbPlainDelFx : Db := UserRepository.delete dbPlainSuspFx "u6" 9

/-- C6, counterexample: after suspending an account every user satisfies
the biconditional, but the soft delete that follows keeps the suspension
metadata while setting status DELETED, so "after every operation" the
biconditional does not hold: the deleted account violates it. -/
theorem suspension_metadata_delete_counterexample :
    (∀ u ∈ dbPlainSuspFx.users, suspMetaIff u) ∧
    (∃ u ∈ dbPlainDelFx.users,
      u.status = UserStatus.DELETED ∧ u.suspensionReason ≠ none ∧ ¬ suspMetaIff u) := by
  constructor
  · decide
  · decide

/-- C6 (amended): `suspendUser` sets status SUSPENDED together with all
three metadata fields and `activateUser` resets status to ACTIVE and
clears all three to null, so both operations preserve the biconditional
on every account; the biconditional is *not* maintained by every
operation, since the soft delete keeps the metadata (see the
counterexample). -/
theorem suspension_metadata_iff_preserved :
    (∀ (db : Db) (id reason adminId : String) (now : Int),
        (∀ u ∈ db.users, suspMetaIff u) →
        ∀ u' ∈ (UserRepository.suspendUser db id reason adminId now).users, suspMetaIff u') ∧
    (∀ (db : Db) (id adminId : String) (now : Int),
        (∀ u ∈ db.users, suspMetaIff u) →
        ∀ u' ∈ (UserRepository.activateUser db id adminId now).users, suspMetaIff u') := by
  constructor
  · intro db id reason adminId now hinv u' hmem'
    simp only [UserRepository.suspendUser] at hmem'
    obtain ⟨s, hs, rfl⟩ := List.mem_map.mp hmem'
    by_cases hid : (s.id == id) = true
    · rw [if_pos hid]
      exact ⟨fun _ => by simp, fun _ => rfl⟩
    · rw [if_neg hid]
      exact hinv s hs
  · intro db id adminId now hinv u' hmem'
    simp only [UserRepository.activateUser] at hmem'
    obtain ⟨s, hs, rfl⟩ := List.mem_map.mp hmem'
    by_cases hid : (s.id == id) = true
    · rw [if_pos hid]
      exact ⟨fun h => by simp at h, fun h => absurd rfl h.1⟩
    · rw [if_neg hid]
      exact hinv s hs

/-- C6 witness: suspension and activation each applied at a concrete
store in which the biconditional holds. -/
theorem suspension_metadata_iff_preserved_witness :
    (∀ u' ∈ (UserRepository.suspendUser dbPlainFx "u6" "policy violation" "adm1" 5).users,
      suspMetaIff u') ∧
    (∀ u' ∈ (UserRepository.activateUser dbPlainSuspFx "u6" "adm1" 7).users, suspMetaIff u') :=
  ⟨suspension_metadata_iff_preserved.1 dbPlainFx "u6" "policy violation" "adm1" 5 (by decide),
    suspension_metadata_iff_preserved.2 dbPlainSuspFx "u6" "adm1" 7 (by decide)⟩

/-! ## C7 — the password-reset cooldown is keyed to VERIFICATION tokens -/

def rlUserFx : User := mkUser "u7" "c7@x.co" (hashPassword "pw") UserRole.USER UserStatus.ACTIVE

def recentResetTokFx : EmailToken :=
  { id := 1, userId := "u7", type := TokenType.PASSWORD_RESET, token := "t7r",
    expiresAt := 10000000, usedAt := none, createdAt := 999 }

def recentVerifTokFx : EmailToken :=
  { id := 1, userId := "u7", type := TokenType.VERIFICATION, token := "t7v",
    expiresAt := 10000000, usedAt := none, createdAt := 999 }

def dbRecentResetFx : Db := { users := [rlUserFx], emailTokens := [recentResetTokFx], nextTokenId := 2 }

def dbRecentVerifFx : Db := { users := [rlUserFx], emailTokens := [recentVerifTokFx], nextTokenId := 2 }

/-- C7, counterexample: a PASSWORD_RESET token created one second ago does
*not* make the next reset request fail with TooManyRequests (it answers
200 and mints a new token), while an EMAIL_VERIFICATION token created one
second ago *does* block it with 429 — the opposite of the claimed keying,
because `sendPasswordResetHandler` reuses `canRequestVerification`, whose
query is fixed to type VERIFICATION. -/
theorem password_reset_cooldown_counterexample :
    (sendPasswordResetHandler dbRecentResetFx 1000 "c7@x.co").1.status = 200 ∧
    (dbRecentResetFx.emailTokens.any (fun t =>
      t.userId == "u7" && t.type == TokenType.PASSWORD_RESET &&
        t.createdAt > 1000 - EMAIL_CONFIG.RESEND_VERIFICATION_COOLDOWN)) = true ∧
    (sendPasswordResetHandler dbRecentVerifFx 1000 "c7@x.co").1.status = 429 ∧
    (dbRecentVerifFx.emailTokens.any (fun t =>
      t.userId == "u7" && t.type == TokenType.PASSWORD_RESET &&
        t.createdAt > 1000 - EMAIL_CONFIG.RESEND_VERIFICATION_COOLDOWN)) = false := by
  refine ⟨by decide, by decide, by decide, by decide⟩

/-- C7 (amended): a reset request for an existing ACTIVE account is
rejected with TooManyRequests iff a token of type VERIFICATION for that
account was created inside the 5-minute window; PASSWORD_RESET tokens
never enter the cooldown decision. -/
theorem password_reset_cooldown_verification_keyed :
    ∀ (db : Db) (now : Int) (email : String) (u : User),
      UserRepository.findByEmail db email = some u →
      u.status = UserStatus.ACTIVE →
      ((sendPasswordResetHandler db now email).1.status = 429 ↔
        (db.emailTokens.any (fun t =>
          t.userId == u.id && t.type == TokenType.VERIFICATION &&
            t.createdAt > now - EMAIL_CONFIG.RESEND_VERIFICATION_COOLDOWN)) = true) := by
  intro db now email u hfind hstat
  unfold sendPasswordResetHandler
  rw [hfind]
  dsimp only
  rw [if_neg (by simp [hstat])]
  by_cases hany : (db.emailTokens.any (fun t =>
      t.userId == u.id && t.type == TokenType.VERIFICATION &&
        t.createdAt > now - EMAIL_CONFIG.RESEND_VERIFICATION_COOLDOWN)) = true
  · rw [if_pos (by simp [EmailRepository.canRequestVerification, hany])]
    simp [hany]
  · rw [if_neg (by simp [EmailRepository.canRequestVerification, hany])]
    simp [genericResetResponse, hany]

/-- C7 witness: the cooldown characterisation applied at the two concrete
stores of the counterexample. -/
theorem password_reset_cooldown_verification_keyed_witness :
    ((sendPasswordResetHandler dbRecentResetFx 1000 "c7@x.co").1.status = 429 ↔
      (dbRecentResetFx.emailTokens.any (fun t =>
        t.userId == "u7" && t.type == TokenType.VERIFICATION &&
          t.createdAt > 1000 - EMAIL_CONFIG.RESEND_VERIFICATION_COOLDOWN)) = true) ∧
    ((sendPasswordResetHandler dbRecentVerifFx 1000 "c7@x.co").1.status = 429 ↔
      (dbRecentVerifFx.emailTokens.any (fun t =>
        t.userId == "u7" && t.type == TokenType.VERIFICATION &&
          t.createdAt > 1000 - EMAIL_CONFIG.RESEND_VERIFICATION_COOLDOWN)) = true) :=
  ⟨password_reset_cooldown_verification_keyed dbRecentResetFx 1000 "c7@x.co" rlUserFx
      (by decide) (by decide),
    password_reset_cooldown_verification_keyed dbRecentVerifFx 1000 "c7@x.co" rlUserFx
      (by decide) (by decide)⟩

/-! ## C8 — the reset request does not normalize the submitted email -/

def c8UserFx : User := mkUser "u8" "user@test.com" (hashPassword "pw") UserRole.USER UserStatus.ACTIVE

def dbC8Fx : Db := { users := [c8UserFx], emailTokens := [], nextTokenId := 0 }

/-- C8, counterexample: for a stored (normalized) address, the same request
with only a case difference behaves differently from the exact address —
the raw lookup misses, the generic message is returned, no token is
created — even though the two emails agree after `normalizeEmail`. -/
theorem password_reset_normalization_counterexample :
    normalizeEmail "USER@test.com" = "user@test.com" ∧
    sendPasswordResetHandler dbC8Fx 0 "USER@test.com" = (genericResetResponse, dbC8Fx) ∧
    (sendPasswordResetHandler dbC8Fx 0 "user@test.com").2.emailTokens ≠ [] := by
  refine ⟨by decide, by decide, by decide⟩

/-- C8 (amended): `sendPasswordResetHandler` looks up the raw submitted
string with no normalization: whenever no stored email equals the raw
string, the handler returns the generic success and leaves the store
unchanged — even when an account's stored address equals the normalized
form of the submission; a request with the exact stored address of an
ACTIVE, non-rate-limited account does create a token (the token counter
advances). -/
theorem password_reset_raw_email_lookup :
    (∀ (db : Db) (now : Int) (email : String),
        UserRepository.findByEmail db email = none →
        (∃ u ∈ db.users, u.email = normalizeEmail email) →
        sendPasswordResetHandler db now email = (genericResetResponse, db)) ∧
    (∀ (db : Db) (now : Int) (u : User),
        UserRepository.findByEmail db u.email = some u →
        u.status = UserStatus.ACTIVE →
        EmailRepository.canRequestVerification db now u.id = true →
        (sendPasswordResetHandler db now u.email).2.nextTokenId = db.nextTokenId + 1) := by
  constructor
  · intro db now email hfind _hnorm
    unfold sendPasswordResetHandler
    rw [hfind]
  · intro db now u hfind hstat hcan
    unfold sendPasswordResetHandler
    rw [hfind]
    dsimp only
    rw [if_neg (by simp [hstat]), if_neg (by simp [hcan])]
    rfl

/-- C8 witness: the raw-lookup theorem applied at the concrete store of
the counterexample. -/
theorem password_reset_raw_email_lookup_witness :
    sendPasswordResetHandler dbC8Fx 0 "USER@test.com" = (genericResetResponse, dbC8Fx) ∧
    (sendPasswordResetHandler dbC8Fx 0 "user@test.com").2.nextTokenId = dbC8Fx.nextTokenId + 1 :=
  ⟨password_reset_raw_email_lookup.1 dbC8Fx 0 "USER@test.com" (by decide)
      ⟨c8UserFx, by decide, by decide⟩,
    password_reset_raw_email_lookup.2 dbC8Fx 0 c8UserFx (by decide) (by decide) (by decide)⟩

/-! ## C9 — token creation deletes prior tokens of the same pair -/

theorem filter_not_filter_self {α : Type} (l : List α) (p : α → Bool) :
    (l.filter (fun a => !(p a))).filter p = [] := by
  induction l with
  | nil => rfl
  | cons a t ih => by_cases h : p a <;> simp [List.filter_cons, h, ih]

theorem filter_not_idem {α : Type} (l : List α) (p : α → Bool) :
    (l.filter (fun a => !(p a))).filter (fun a => !(p a)) = l.filter (fun a => !(p a)) := by
  induction l with
  | nil => rfl
  | cons a t ih => by_cases h : p a <;> simp [List.filter_cons, h, ih]

/-- C9 (confirmed): right after `createVerificationToken` (resp.
`createPasswordResetToken`) the tokens of that (account, purpose) pair are
exactly the one freshly inserted unused token expiring at creation time
plus the configured TTL, and the tokens outside the pair — other purpose
or other account — are exactly what they were before. -/
theorem token_creation_replaces_same_purpose :
    ∀ (db : Db) (now : Int) (uid : String),
      ((EmailRepository.createVerificationToken db now uid).1.emailTokens.filter
          (fun t => t.userId == uid && t.type == TokenType.VERIFICATION) =
        [{ id := db.nextTokenId, userId := uid, type := TokenType.VERIFICATION,
           token := EmailRepository.freshToken db,
           expiresAt := now + EMAIL_CONFIG.VERIFICATION_TOKEN_EXPIRY,
           usedAt := none, createdAt := now }]) ∧
      ((EmailRepository.createVerificationToken db now uid).1.emailTokens.filter
          (fun t => !(t.userId == uid && t.type == TokenType.VERIFICATION)) =
        db.emailTokens.filter
          (fun t => !(t.userId == uid && t.type == TokenType.VERIFICATION))) ∧
      ((EmailRepository.createPasswordResetToken db now uid).1.emailTokens.filter
          (fun t => t.userId == uid && t.type == TokenType.PASSWORD_RESET) =
        [{ id := db.nextTokenId, userId := uid, type := TokenType.PASSWORD_RESET,
           token := EmailRepository.freshToken db,
           expiresAt := now + EMAIL_CONFIG.PASSWORD_RESET_TOKEN_EXPIRY,
           usedAt := none, createdAt := now }]) ∧
      ((EmailRepository.createPasswordResetToken db now uid).1.emailTokens.filter
          (fun t => !(t.userId == uid && t.type == TokenType.PASSWORD_RESET)) =
        db.emailTokens.filter
          (fun t => !(t.userId == uid && t.type == TokenType.PASSWORD_RESET))) := by
  intro db now uid
  refine ⟨?_, ?_, ?_, ?_⟩
  · unfold EmailRepository.createVerificationToken
    dsimp only
    rw [List.filter_append, filter_not_filter_self]
    simp
  · unfold EmailRepository.createVerificationToken
    dsimp only
    rw [List.filter_append, filter_not_idem]
    simp
  · unfold EmailRepository.createPasswordResetToken
    dsimp only
    rw [List.filter_append, filter_not_filter_self]
    simp
  · unfold EmailRepository.createPasswordResetToken
    dsimp only
    rw [List.filter_append, filter_not_idem]
    simp

/-! ## C10 — token consumed before the account checks -/

def suspOwnerFx : User := mkUser "u10" "c10@x.co" (hashPassword "pw") UserRole.USER UserStatus.SUSPENDED

def verTokSuspOwnerFx : EmailToken :=
  { id := 1, userId := "u10", type := TokenType.VERIFICATION, token := "t10",
    expiresAt := 100, usedAt := none, createdAt := 0 }

def dbSuspOwnerFx : Db :=
  { users := [suspOwnerFx], emailTokens := [verTokSuspOwnerFx], nextTokenId := 2 }

def orphanResetTokFx : EmailToken :=
  { id := 1, userId := "ghost", type := TokenType.PASSWORD_RESET, token := "t10r",
    expiresAt := 100, usedAt := none, createdAt := 0 }

def dbOrphanResetFx : Db := { users := [], emailTokens := [orphanResetTokFx], nextTokenId := 2 }

def resetTokSuspOwnerFx : EmailToken :=
  { id := 1, userId := "u10", type := TokenType.PASSWORD_RESET, token := "t10s",
    expiresAt := 100, usedAt := none, createdAt := 0 }

def dbResetSuspOwnerFx : Db :=
  { users := [suspOwnerFx], emailTokens := [resetTokSuspOwnerFx], nextTokenId := 2 }

def orphanVerifTokFx : EmailToken :=
  { id := 1, userId := "ghost", type := TokenType.VERIFICATION, token := "t10v",
    expiresAt := 100, usedAt := none, createdAt := 0 }

def dbOrphanVerifFx : Db := { users := [], emailTokens := [orphanVerifTokFx], nextTokenId := 2 }

/-- C10, counterexample: `verifyEmailHandler` checks only that the owner
exists, not that it is ACTIVE — a valid verification token owned by a
SUSPENDED account verifies successfully instead of failing as the claim
states for every non-ACTIVE owner. -/
theorem verify_email_inactive_owner_counterexample :
    verTokSuspOwnerFx.usedAt = none ∧ (50 : Int) < verTokSuspOwnerFx.expiresAt ∧
    suspOwnerFx.status ≠ UserStatus.ACTIVE ∧
    (verifyEmailHandler dbSuspOwnerFx 50 "t10").1 =
      { success := true, message := "Email verified successfully", status := 200 } := by
  refine ⟨by decide, by decide, by decide, by decide⟩

/-- C10 (amended): both handlers consume the submitted token before any
account check. For `confirmPasswordReset` a valid token whose owner is
missing fails NotFound and one whose owner is not ACTIVE fails Forbidden,
in both cases with the token already marked used, so any retry with the
same raw string fails with the invalid-token BadRequest and no state
change. For `verifyEmail` the same holds for a missing owner (NotFound);
a non-ACTIVE but existing owner is *not* rejected (see counterexample). -/
theorem consume_before_account_check :
    ∀ (db : Db) (now : Int) (tok : String),
      (db.emailTokens.map EmailToken.token).Nodup →
      ((EmailRepository.verifyAndConsumeToken db now tok TokenType.PASSWORD_RESET).1.isValid = true →
        (∀ t ∈ (EmailRepository.verifyAndConsumeToken db now tok TokenType.PASSWORD_RESET).2.emailTokens,
            t.token = tok → t.usedAt ≠ none) ∧
        (∀ (pw : String),
          UserRepository.findById
              (EmailRepository.verifyAndConsumeToken db now tok TokenType.PASSWORD_RESET).2
              (EmailRepository.verifyAndConsumeToken db now tok TokenType.PASSWORD_RESET).1.userId
              = none →
          resetPasswordHandler db now tok pw =
            ({ success := false, message := "User not found", status := 404 },
              (EmailRepository.verifyAndConsumeToken db now tok TokenType.PASSWORD_RESET).2)) ∧
        (∀ (pw : String) (u : User),
          UserRepository.findById
              (EmailRepository.verifyAndConsumeToken db now tok TokenType.PASSWORD_RESET).2
              (EmailRepository.verifyAndConsumeToken db now tok TokenType.PASSWORD_RESET).1.userId
              = some u →
          u.status ≠ UserStatus.ACTIVE →
          resetPasswordHandler db now tok pw =
            ({ success := false, message := "Account is not active", status := 403 },
              (EmailRepository.verifyAndConsumeToken db now tok TokenType.PASSWORD_RESET).2)) ∧
        (∀ (now2 : Int) (pw : String),
          resetPasswordHandler
              (EmailRepository.verifyAndConsumeToken db now tok TokenType.PASSWORD_RESET).2
              now2 tok pw =
            ({ success := false, message := "Invalid or expired reset token", status := 400 },
              (EmailRepository.verifyAndConsumeToken db now tok TokenType.PASSWORD_RESET).2))) ∧
      ((EmailRepository.verifyAndConsumeToken db now tok TokenType.VERIFICATION).1.isValid = true →
        (UserRepository.findById
            (EmailRepository.verifyAndConsumeToken db now tok TokenType.VERIFICATION).2
            (EmailRepository.verifyAndConsumeToken db now tok TokenType.VERIFICATION).1.userId
            = none →
          verifyEmailHandler db now tok =
            ({ success := false, message := "User not found", status := 404 },
              (EmailRepository.verifyAndConsumeToken db now tok TokenType.VERIFICATION).2)) ∧
        (∀ (now2 : Int),
          verifyEmailHandler
              (EmailRepository.verifyAndConsumeToken db now tok TokenType.VERIFICATION).2
              now2 tok =
            ({ success := false, message := "Invalid or expired verification token", status := 400 },
              (EmailRepository.verifyAndConsumeToken db now tok TokenType.VERIFICATION).2))) := by
  intro db now tok hnd
  constructor
  · intro hval
    refine ⟨EmailRepository.consume_marks_used db now tok TokenType.PASSWORD_RESET hnd hval,
      ?_, ?_, ?_⟩
    · intro pw hfind
      unfold resetPasswordHandler
      dsimp only
      rw [if_neg (by simp [hval]), hfind]
    · intro pw u hfind hstat
      unfold resetPasswordHandler
      dsimp only
      rw [if_neg (by simp [hval]), hfind]
      dsimp only
      rw [if_pos hstat]
    · intro now2 pw
      exact resetPasswordHandler_invalid _ now2 tok pw
        (EmailRepository.consume_fails_of_all_used _ now2 tok TokenType.PASSWORD_RESET
          (EmailRepository.consume_marks_used db now tok TokenType.PASSWORD_RESET hnd hval))
  · intro hval
    constructor
    · intro hfind
      unfold verifyEmailHandler
      dsimp only
      rw [if_neg (by simp [hval]), hfind]
    · intro now2
      exact verifyEmailHandler_invalid _ now2 tok
        (EmailRepository.consume_fails_of_all_used _ now2 tok TokenType.VERIFICATION
          (EmailRepository.consume_marks_used db now tok TokenType.VERIFICATION hnd hval))

/-- C10 witness: the amended theorem applied at concrete stores — a reset
token with no owner (NotFound), a reset token owned by a suspended
account (Forbidden) with its retry, and a verification token with no
owner (NotFound). -/
theorem consume_before_account_check_witness :
    resetPasswordHandler dbOrphanResetFx 50 "t10r" "npw" =
      ({ success := false, message := "User not found", status := 404 },
        (EmailRepository.verifyAndConsumeToken dbOrphanResetFx 50 "t10r"
          TokenType.PASSWORD_RESET).2) ∧
    resetPasswordHandler dbResetSuspOwnerFx 50 "t10s" "npw" =
      ({ success := false, message := "Account is not active", status := 403 },
        (EmailRepository.verifyAndConsumeToken dbResetSuspOwnerFx 50 "t10s"
          TokenType.PASSWORD_RESET).2) ∧
    resetPasswordHandler
        (EmailRepository.verifyAndConsumeToken dbResetSuspOwnerFx 50 "t10s"
          TokenType.PASSWORD_RESET).2 60 "t10s" "npw" =
      ({ success := false, message := "Invalid or expired reset token", status := 400 },
        (EmailRepository.verifyAndConsumeToken dbResetSuspOwnerFx 50 "t10s"
          TokenType.PASSWORD_RESET).2) ∧
    verifyEmailHandler dbOrphanVerifFx 50 "t10v" =
      ({ success := false, message := "User not found", status := 404 },
        (EmailRepository.verifyAndConsumeToken dbOrphanVerifFx 50 "t10v"
          TokenType.VERIFICATION).2) :=
  ⟨((consume_before_account_check dbOrphanResetFx 50 "t10r" (by decide)).1
      (by decide)).2.1 "npw" (by decide),
    ((consume_before_account_check dbResetSuspOwnerFx 50 "t10s" (by decide)).1
      (by decide)).2.2.1 "npw" suspOwnerFx (by decide) (by decide),
    ((consume_before_account_check dbResetSuspOwnerFx 50 "t10s" (by decide)).1
      (by decide)).2.2.2 60 "npw",
    ((consume_before_account_check dbOrphanVerifFx 50 "t10v" (by decide)).2
      (by decide)).1 (by decide)⟩
